import Mathlib

/-!
Formalization of the request-admission and execution-scheduling core of the
ansible-lifecycle-driver repository (`ansibledriver/service/process.py`).

The Python code is shallowly embedded: each method that the properties below
talk about becomes a Lean function over explicit inputs (the `active` flag,
the current queue depth, the configured properties, the dequeued item, the
outcome of the external execution collaborator), returning the list of
observable effects it performs (queue operations, counter operations, pipe
writes, messaging publications).  Fallible code returns `Except String`,
the error carrying the raised exception's message.

Collaborators that live outside the embedded module (the `ignition` data
model constants, the bounded queue's sentinel) are modelled from the spec
and are marked as such in their doc comments.
-/

/-- Modelled from the spec: the Result status domain of the ignition lifecycle
model (`ignition.model.lifecycle`, not part of the embedded sources): a status
is IN_PROGRESS, COMPLETE or FAILED. -/
inductive Status
  | IN_PROGRESS
  | COMPLETE
  | FAILED
deriving DecidableEq, Repr

/-- Modelled from the spec: the failure details record of the ignition failure
model (`ignition.model.failure`, not part of the embedded sources): a failure
code together with a human-readable description. -/
structure FailureDetails where
  failure_code : String
  description : String
deriving DecidableEq, Repr

/-- Modelled from the spec: the ignition failure-code constant for admission
rejections; the spec names this code "insufficient capacity". -/
def FAILURE_CODE_INSUFFICIENT_CAPACITY : String := "insufficient capacity"

/-- Modelled from the spec: the ignition failure-code constant for execution
failures converted at the worker boundary; the spec names it "internal error". -/
def FAILURE_CODE_INTERNAL_ERROR : String := "internal error"

/-- Modelled from the spec: a lifecycle execution Result
(`ignition.model.lifecycle.LifecycleExecution`): the originating request id,
a status, optional failure details, and an outputs mapping. -/
structure LifecycleExecution where
  request_id : String
  status : Status
  failure_details : Option FailureDetails
  outputs : List (String × String)
deriving DecidableEq, Repr

/-- A Request is a mapping with at least `request_id`, `lifecycle_name` and
`lifecycle_path`, plus arbitrary operation parameters; field presence is
`List.lookup` returning `some`. -/
abbrev Request := List (String × String)

/-- `ProcessProperties` from `process.py`, with the defaults applied in its
constructor. -/
structure ProcessProperties where
  process_pool_size : Nat := 10
  max_concurrent_ansible_processes : Nat := 10
  max_queue_size : Nat := 100
  use_pool : Bool := false
  is_threaded : Bool := false
deriving DecidableEq, Repr

/-- Modelled from the spec: the items travelling on the bounded queue are
Requests plus a distinguished SHUTDOWN sentinel (`SHUTDOWN_MESSAGE` from
`ansibledriver.service.queue`, whose source is not part of the embedded
module) that terminates the dispatch loop when dequeued. -/
inductive QueueItem
  | SHUTDOWN_MESSAGE
  | request (r : Request)
deriving DecidableEq, Repr

/-- The observable effects of the embedded code: operations on the bounded
queue (`next`, `size`, `put`, `task_done`, `shutdown`), operations on the
shared concurrency counter, spawning a worker isolate (thread or process
variant) for a request, writes to and closing of the result channel, the
process variant's SIGCHLD reset, and publications to the messaging
collaborator. -/
inductive Event
  | queueNext
  | queueSize
  | queuePut (r : Request)
  | taskDone
  | queueShutdown
  | counterIncrement
  | counterDecrement
  | spawnWorker (threaded : Bool) (r : Request)
  | pipeSend (e : Option LifecycleExecution)
  | pipeClose
  | resetSigchld
  | sendLifecycleExecution (e : LifecycleExecution)
deriving DecidableEq, Repr

/-- The Results published to the messaging collaborator among a list of
effects (the facade's direct `messaging_service.send_lifecycle_execution`
calls). -/
def sends (evs : List Event) : List LifecycleExecution :=
  evs.filterMap fun e =>
    match e with
    | Event.sendLifecycleExecution x => some x
    | _ => none

/-- The Results written to the result channel among a list of effects (the
worker isolates' `send_pipe.send` calls that carry an actual value). -/
def pipeSends (evs : List Event) : List LifecycleExecution :=
  evs.filterMap fun e =>
    match e with
    | Event.pipeSend (some x) => some x
    | _ => none

/-- `AnsibleProcessorService.run_lifecycle` from `process.py`.  Validates the
three required fields in order, raising `ValueError` (the `Except.error`
message) when one is missing; then evaluates the debug-log line, which calls
`request_queue.size()` once; then, if active, calls `size()` again for the
capacity comparison and either publishes an overload rejection or enqueues
the request; if inactive, publishes an inactivity rejection. -/
def AnsibleProcessorService.run_lifecycle (active : Bool) (queue_size : Nat)
    (props : ProcessProperties) (request : Request) : Except String (List Event) :=
  match request.lookup "request_id" with
  | none => Except.error "Request must have a request_id"
  | some request_id =>
    match request.lookup "lifecycle_name" with
    | none => Except.error "Request must have a lifecycle_name"
    | some _ =>
      match request.lookup "lifecycle_path" with
      | none => Except.error "Request must have a lifecycle_path"
      | some _ =>
        if active = true then
          if queue_size ≥ props.max_queue_size then
            Except.ok [Event.queueSize, Event.queueSize,
              Event.sendLifecycleExecution
                ⟨request_id, Status.FAILED,
                 some ⟨FAILURE_CODE_INSUFFICIENT_CAPACITY,
                       "Request cannot be handled, driver is overloaded"⟩, []⟩]
          else
            Except.ok [Event.queueSize, Event.queueSize, Event.queuePut request]
        else
          Except.ok [Event.queueSize,
            Event.sendLifecycleExecution
              ⟨request_id, Status.FAILED,
               some ⟨FAILURE_CODE_INSUFFICIENT_CAPACITY, "Driver is inactive"⟩, []⟩]

/-- Claim C1 (counterexample): with all three fields present, the flag active
and the queue at capacity, the one Result published by `run_lifecycle` has
description "Request cannot be handled, driver is overloaded", which is not
the description "driver is overloaded" stated by the claim. -/
theorem run_lifecycle_overload_description_cex :
    AnsibleProcessorService.run_lifecycle true 100 {}
        [("request_id", "r1"), ("lifecycle_name", "start"), ("lifecycle_path", "/p")]
      = Except.ok [Event.queueSize, Event.queueSize,
          Event.sendLifecycleExecution
            ⟨"r1", Status.FAILED,
             some ⟨"insufficient capacity",
                   "Request cannot be handled, driver is overloaded"⟩, []⟩]
    ∧ "Request cannot be handled, driver is overloaded" ≠ "driver is overloaded" := by
  constructor
  · rfl
  · decide

/-- Claim C1 (amended): with all three required fields present, the flag
active and queue depth at least the configured maximum, `run_lifecycle`
publishes exactly one Result — status FAILED, failure code
"insufficient capacity", description
"Request cannot be handled, driver is overloaded" — and never puts the
request on the queue. -/
theorem run_lifecycle_overloaded (queue_size : Nat) (props : ProcessProperties)
    (request : Request) (request_id lname lpath : String)
    (h1 : request.lookup "request_id" = some request_id)
    (h2 : request.lookup "lifecycle_name" = some lname)
    (h3 : request.lookup "lifecycle_path" = some lpath)
    (hq : props.max_queue_size ≤ queue_size) :
    AnsibleProcessorService.run_lifecycle true queue_size props request
      = Except.ok [Event.queueSize, Event.queueSize,
          Event.sendLifecycleExecution
            ⟨request_id, Status.FAILED,
             some ⟨FAILURE_CODE_INSUFFICIENT_CAPACITY,
                   "Request cannot be handled, driver is overloaded"⟩, []⟩]
    ∧ sends [Event.queueSize, Event.queueSize,
          Event.sendLifecycleExecution
            ⟨request_id, Status.FAILED,
             some ⟨FAILURE_CODE_INSUFFICIENT_CAPACITY,
                   "Request cannot be handled, driver is overloaded"⟩, []⟩]
        = [⟨request_id, Status.FAILED,
            some ⟨FAILURE_CODE_INSUFFICIENT_CAPACITY,
                  "Request cannot be handled, driver is overloaded"⟩, []⟩]
    ∧ ∀ x, Event.queuePut x ∉ [Event.queueSize, Event.queueSize,
          Event.sendLifecycleExecution
            ⟨request_id, Status.FAILED,
             some ⟨FAILURE_CODE_INSUFFICIENT_CAPACITY,
                   "Request cannot be handled, driver is overloaded"⟩, []⟩] := by
  refine ⟨?_, ?_, ?_⟩
  · simp [AnsibleProcessorService.run_lifecycle, h1, h2, h3, hq]
  · simp [sends]
  · intro x; simp

/-- Claim C1 (witness). -/
theorem run_lifecycle_overloaded_witness :
    AnsibleProcessorService.run_lifecycle true 100 {}
        [("request_id", "r1"), ("lifecycle_name", "start"), ("lifecycle_path", "/p")]
      = Except.ok [Event.queueSize, Event.queueSize,
          Event.sendLifecycleExecution
            ⟨"r1", Status.FAILED,
             some ⟨FAILURE_CODE_INSUFFICIENT_CAPACITY,
                   "Request cannot be handled, driver is overloaded"⟩, []⟩] :=
  (run_lifecycle_overloaded 100 {}
    [("request_id", "r1"), ("lifecycle_name", "start"), ("lifecycle_path", "/p")]
    "r1" "start" "/p" (by decide) (by decide) (by decide) (by decide)).1

/-- Claim C2: when `request_id`, `lifecycle_name` or `lifecycle_path` is
missing, `run_lifecycle` raises a `ValueError` whose message names a missing
field, and returns no effect list at all — so nothing touches the queue and
no Result reaches the messaging collaborator. -/
theorem run_lifecycle_missing_field (active : Bool) (queue_size : Nat)
    (props : ProcessProperties) (request : Request)
    (h : request.lookup "request_id" = none ∨ request.lookup "lifecycle_name" = none
         ∨ request.lookup "lifecycle_path" = none) :
    ∃ f, (f = "request_id" ∨ f = "lifecycle_name" ∨ f = "lifecycle_path")
      ∧ request.lookup f = none
      ∧ AnsibleProcessorService.run_lifecycle active queue_size props request
          = Except.error ("Request must have a " ++ f)
      ∧ ∀ evs, AnsibleProcessorService.run_lifecycle active queue_size props request
          ≠ Except.ok evs := by
  rcases h1 : request.lookup "request_id" with _ | rid
  · refine ⟨"request_id", Or.inl rfl, h1, ?_, ?_⟩
    · simp [AnsibleProcessorService.run_lifecycle, h1]
    · intro evs
      simp [AnsibleProcessorService.run_lifecycle, h1]
  · rcases h2 : request.lookup "lifecycle_name" with _ | lname
    · refine ⟨"lifecycle_name", Or.inr (Or.inl rfl), h2, ?_, ?_⟩
      · simp [AnsibleProcessorService.run_lifecycle, h1, h2]
      · intro evs
        simp [AnsibleProcessorService.run_lifecycle, h1, h2]
    · rcases h3 : request.lookup "lifecycle_path" with _ | lpath
      · refine ⟨"lifecycle_path", Or.inr (Or.inr rfl), h3, ?_, ?_⟩
        · simp [AnsibleProcessorService.run_lifecycle, h1, h2, h3]
        · intro evs
          simp [AnsibleProcessorService.run_lifecycle, h1, h2, h3]
      · rcases h with h | h | h
        · exact absurd h1 (by simp [h])
        · exact absurd h2 (by simp [h])
        · exact absurd h3 (by simp [h])

/-- Claim C2 (witness). -/
theorem run_lifecycle_missing_field_witness :
    ∃ f, (f = "request_id" ∨ f = "lifecycle_name" ∨ f = "lifecycle_path")
      ∧ List.lookup f ([("lifecycle_name", "start")] : Request) = none
      ∧ AnsibleProcessorService.run_lifecycle true 0 {} [("lifecycle_name", "start")]
          = Except.error ("Request must have a " ++ f)
      ∧ ∀ evs, AnsibleProcessorService.run_lifecycle true 0 {} [("lifecycle_name", "start")]
          ≠ Except.ok evs :=
  run_lifecycle_missing_field true 0 {} [("lifecycle_name", "start")] (Or.inl (by decide))

/-- Claim C3 (counterexample): with all three fields present and the flag
inactive, `run_lifecycle` does perform a queue operation: the debug-log line
preceding the activity check calls `request_queue.size()`, so the claim's
"neither size nor put is called" fails at this input. -/
theorem run_lifecycle_inactive_size_cex :
    AnsibleProcessorService.run_lifecycle false 0 {}
        [("request_id", "r1"), ("lifecycle_name", "start"), ("lifecycle_path", "/p")]
      = Except.ok [Event.queueSize,
          Event.sendLifecycleExecution
            ⟨"r1", Status.FAILED,
             some ⟨"insufficient capacity", "Driver is inactive"⟩, []⟩]
    ∧ Event.queueSize ∈ [Event.queueSize,
          Event.sendLifecycleExecution
            ⟨"r1", Status.FAILED,
             some ⟨"insufficient capacity", "Driver is inactive"⟩, []⟩] := by
  constructor
  · rfl
  · decide

/-- Claim C3 (amended): with all three required fields present and the flag
inactive, `run_lifecycle` publishes exactly one Result — status FAILED,
failure code "insufficient capacity", description "Driver is inactive" — and
never puts the request on the queue; its only queue operation is the single
`size()` call made by the debug-log line before the activity check. -/
theorem run_lifecycle_inactive (queue_size : Nat) (props : ProcessProperties)
    (request : Request) (request_id lname lpath : String)
    (h1 : request.lookup "request_id" = some request_id)
    (h2 : request.lookup "lifecycle_name" = some lname)
    (h3 : request.lookup "lifecycle_path" = some lpath) :
    AnsibleProcessorService.run_lifecycle false queue_size props request
      = Except.ok [Event.queueSize,
          Event.sendLifecycleExecution
            ⟨request_id, Status.FAILED,
             some ⟨FAILURE_CODE_INSUFFICIENT_CAPACITY, "Driver is inactive"⟩, []⟩]
    ∧ sends [Event.queueSize,
          Event.sendLifecycleExecution
            ⟨request_id, Status.FAILED,
             some ⟨FAILURE_CODE_INSUFFICIENT_CAPACITY, "Driver is inactive"⟩, []⟩]
        = [⟨request_id, Status.FAILED,
            some ⟨FAILURE_CODE_INSUFFICIENT_CAPACITY, "Driver is inactive"⟩, []⟩]
    ∧ ∀ x, Event.queuePut x ∉ [Event.queueSize,
          Event.sendLifecycleExecution
            ⟨request_id, Status.FAILED,
             some ⟨FAILURE_CODE_INSUFFICIENT_CAPACITY, "Driver is inactive"⟩, []⟩] := by
  refine ⟨?_, ?_, ?_⟩
  · simp [AnsibleProcessorService.run_lifecycle, h1, h2, h3]
  · simp [sends]
  · intro x; simp

/-- Claim C3 (witness). -/
theorem run_lifecycle_inactive_witness :
    AnsibleProcessorService.run_lifecycle false 7 {}
        [("request_id", "r2"), ("lifecycle_name", "stop"), ("lifecycle_path", "/q")]
      = Except.ok [Event.queueSize,
          Event.sendLifecycleExecution
            ⟨"r2", Status.FAILED,
             some ⟨FAILURE_CODE_INSUFFICIENT_CAPACITY, "Driver is inactive"⟩, []⟩] :=
  (run_lifecycle_inactive 7 {}
    [("request_id", "r2"), ("lifecycle_name", "stop"), ("lifecycle_path", "/q")]
    "r2" "stop" "/q" (by decide) (by decide) (by decide)).1

/-- Claim C10: validation precedes the activity and capacity checks and uses
the fixed order `request_id`, `lifecycle_name`, `lifecycle_path`: whichever
of the three fields is missing first in that order determines the raised
`ValueError`, for every value of the active flag — in particular for an
inactive driver, where a malformed request raises instead of producing the
"Driver is inactive" Result. -/
theorem run_lifecycle_validation_order (active : Bool) (queue_size : Nat)
    (props : ProcessProperties) (request : Request) :
    (request.lookup "request_id" = none →
      AnsibleProcessorService.run_lifecycle active queue_size props request
        = Except.error "Request must have a request_id")
    ∧ ((∃ v, request.lookup "request_id" = some v) →
        request.lookup "lifecycle_name" = none →
      AnsibleProcessorService.run_lifecycle active queue_size props request
        = Except.error "Request must have a lifecycle_name")
    ∧ ((∃ v, request.lookup "request_id" = some v) →
        (∃ v, request.lookup "lifecycle_name" = some v) →
        request.lookup "lifecycle_path" = none →
      AnsibleProcessorService.run_lifecycle active queue_size props request
        = Except.error "Request must have a lifecycle_path") := by
  refine ⟨?_, ?_, ?_⟩
  · intro h1
    simp [AnsibleProcessorService.run_lifecycle, h1]
  · rintro ⟨v1, h1⟩ h2
    simp [AnsibleProcessorService.run_lifecycle, h1, h2]
  · rintro ⟨v1, h1⟩ ⟨v2, h2⟩ h3
    simp [AnsibleProcessorService.run_lifecycle, h1, h2, h3]

/-- Claim C10 (witness): a request missing `request_id` and `lifecycle_path`
but carrying `lifecycle_name`, submitted to an inactive driver, raises about
`request_id` — the first missing field in the fixed order. -/
theorem run_lifecycle_validation_order_witness :
    AnsibleProcessorService.run_lifecycle false 0 {} [("lifecycle_name", "start")]
      = Except.error "Request must have a request_id" :=
  (run_lifecycle_validation_order false 0 {} [("lifecycle_name", "start")]).1 (by decide)

/-- The point inside the dispatch loop's try block at which an unexpected
exception is raised, when one is: at `counter.increment()` or at the
construction/start of the worker.  `none` is the normal, non-raising run. -/
inductive FailPoint
  | atIncrement
  | atSpawn
deriving DecidableEq, Repr

/-- One iteration of `QueueThread.run` from `process.py`, entered with the
current counter value and the dequeued item (`none` when `next()` returned
nothing).  Returns the effects performed and whether the loop breaks.
The SHUTDOWN sentinel is acknowledged and breaks the loop; a request is
dispatched when the counter is below the configured maximum — increment,
then spawn the configured worker variant, with `task_done` in a `finally`
block so it runs even when `failAt` marks a raise (the outer handler then
logs the exception and the loop continues) — and otherwise acknowledged and
re-inserted with `put`. -/
def QueueThread.runIteration (counterValue : Nat) (props : ProcessProperties)
    (item : Option QueueItem) (failAt : Option FailPoint) : List Event × Bool :=
  match item with
  | none => ([Event.queueNext], false)
  | some QueueItem.SHUTDOWN_MESSAGE => ([Event.queueNext, Event.taskDone], true)
  | some (QueueItem.request r) =>
    if counterValue < props.max_concurrent_ansible_processes then
      if QueueItem.request r = QueueItem.SHUTDOWN_MESSAGE then
        ([Event.queueNext, Event.taskDone], true)
      else
        match failAt with
        | some FailPoint.atIncrement =>
            ([Event.queueNext, Event.taskDone], false)
        | some FailPoint.atSpawn =>
            ([Event.queueNext, Event.counterIncrement, Event.taskDone], false)
        | none =>
            ([Event.queueNext, Event.counterIncrement,
              Event.spawnWorker props.is_threaded r, Event.taskDone], false)
    else
      ([Event.queueNext, Event.taskDone, Event.queuePut r], false)

/-- `AnsibleClient.run_lifecycle_playbook` is an external collaborator: a
call either returns (possibly an empty/absent value) or raises with some
message. -/
inductive ExecOutcome
  | returns (resp : Option LifecycleExecution)
  | raises (msg : String)
deriving DecidableEq, Repr

/-- `AnsibleWorkerThread.run` from `process.py`: with a request present,
invoke the execution collaborator; a non-empty response is written to the
result channel, an empty one is only logged; an exception is caught and
converted to a FAILED internal-error Result carrying the exception's
message — unless the dictionary access `request['request_id']` in the
handler itself fails, in which case that `KeyError` escapes the isolate. -/
def AnsibleWorkerThread.run (request : Option Request) (outcome : ExecOutcome) :
    Except String (List Event) :=
  match request with
  | none => Except.ok []
  | some r =>
    match outcome with
    | ExecOutcome.returns (some resp) => Except.ok [Event.pipeSend (some resp)]
    | ExecOutcome.returns none => Except.ok []
    | ExecOutcome.raises msg =>
      match r.lookup "request_id" with
      | some rid =>
          Except.ok [Event.pipeSend (some
            ⟨rid, Status.FAILED,
             some ⟨FAILURE_CODE_INTERNAL_ERROR, "Unexpected exception: " ++ msg⟩, []⟩)]
      | none => Except.error "KeyError: request_id"

/-- `AnsibleWorkerProcess.run` from `process.py`: same body as the thread
variant, preceded by the SIGCHLD handler reset the process variant performs
on start. -/
def AnsibleWorkerProcess.run (request : Option Request) (outcome : ExecOutcome) :
    Except String (List Event) :=
  match request with
  | none => Except.ok [Event.resetSigchld]
  | some r =>
    match outcome with
    | ExecOutcome.returns (some resp) =>
        Except.ok [Event.resetSigchld, Event.pipeSend (some resp)]
    | ExecOutcome.returns none => Except.ok [Event.resetSigchld]
    | ExecOutcome.raises msg =>
      match r.lookup "request_id" with
      | some rid =>
          Except.ok [Event.resetSigchld, Event.pipeSend (some
            ⟨rid, Status.FAILED,
             some ⟨FAILURE_CODE_INTERNAL_ERROR, "Unexpected exception: " ++ msg⟩, []⟩)]
      | none => Except.error "KeyError: request_id"

/-- `big` contains `small` as a substring: some text comes before and some
after. -/
def strContains (big small : String) : Prop :=
  ∃ p q : String, big = p ++ small ++ q

/-- Claim C4: a worker isolate of either variant whose request is present
and whose execution call raises writes exactly one Result to the result
channel — the request's `request_id`, status FAILED, failure code
"internal error", description containing the raised message — and the
exception does not escape the isolate. -/
theorem worker_exception_to_failed_result (r : Request) (rid msg : String)
    (h : r.lookup "request_id" = some rid) :
    AnsibleWorkerThread.run (some r) (ExecOutcome.raises msg)
      = Except.ok [Event.pipeSend (some
          ⟨rid, Status.FAILED,
           some ⟨FAILURE_CODE_INTERNAL_ERROR, "Unexpected exception: " ++ msg⟩, []⟩)]
    ∧ AnsibleWorkerProcess.run (some r) (ExecOutcome.raises msg)
      = Except.ok [Event.resetSigchld, Event.pipeSend (some
          ⟨rid, Status.FAILED,
           some ⟨FAILURE_CODE_INTERNAL_ERROR, "Unexpected exception: " ++ msg⟩, []⟩)]
    ∧ pipeSends [Event.resetSigchld, Event.pipeSend (some
          ⟨rid, Status.FAILED,
           some ⟨FAILURE_CODE_INTERNAL_ERROR, "Unexpected exception: " ++ msg⟩, []⟩)]
      = [⟨rid, Status.FAILED,
          some ⟨FAILURE_CODE_INTERNAL_ERROR, "Unexpected exception: " ++ msg⟩, []⟩]
    ∧ strContains ("Unexpected exception: " ++ msg) msg := by
  refine ⟨?_, ?_, ?_, ?_⟩
  · simp [AnsibleWorkerThread.run, h]
  · simp [AnsibleWorkerProcess.run, h]
  · simp [pipeSends]
  · exact ⟨"Unexpected exception: ", "", by simp⟩

/-- Claim C4 (witness). -/
theorem worker_exception_to_failed_result_witness :
    AnsibleWorkerThread.run (some [("request_id", "r1")]) (ExecOutcome.raises "boom")
      = Except.ok [Event.pipeSend (some
          ⟨"r1", Status.FAILED,
           some ⟨FAILURE_CODE_INTERNAL_ERROR, "Unexpected exception: " ++ "boom"⟩, []⟩)] :=
  (worker_exception_to_failed_result [("request_id", "r1")] "r1" "boom" (by decide)).1

/-- Claim C8: a worker isolate of either variant whose request is present
and whose execution call returns an empty/absent value writes nothing to the
result channel: no `pipeSend` effect of any kind occurs (the process variant
performs only its SIGCHLD reset). -/
theorem worker_empty_response_silent (r : Request) :
    AnsibleWorkerThread.run (some r) (ExecOutcome.returns none) = Except.ok []
    ∧ AnsibleWorkerProcess.run (some r) (ExecOutcome.returns none)
        = Except.ok [Event.resetSigchld]
    ∧ (∀ x, Event.pipeSend x ∉ ([] : List Event))
    ∧ (∀ x, Event.pipeSend x ∉ [Event.resetSigchld]) := by
  refine ⟨rfl, rfl, ?_, ?_⟩
  · intro x; simp
  · intro x; simp

/-- Claim C5: a dispatch-loop iteration on a dequeued non-sentinel request,
with no unexpected raise: below the concurrency limit it increments the
counter exactly once and spawns exactly one worker isolate bound to this
request, and puts nothing back on the queue; at or above the limit it leaves
the counter untouched, spawns nothing, and re-inserts exactly this request
with `put`. -/
theorem dispatch_spawn_or_requeue (counterValue : Nat) (props : ProcessProperties)
    (r : Request) :
    (counterValue < props.max_concurrent_ansible_processes →
      (QueueThread.runIteration counterValue props (some (QueueItem.request r)) none).1
        = [Event.queueNext, Event.counterIncrement,
           Event.spawnWorker props.is_threaded r, Event.taskDone]
      ∧ List.count Event.counterIncrement
          (QueueThread.runIteration counterValue props (some (QueueItem.request r)) none).1 = 1
      ∧ List.count (Event.spawnWorker props.is_threaded r)
          (QueueThread.runIteration counterValue props (some (QueueItem.request r)) none).1 = 1
      ∧ ∀ x, Event.queuePut x ∉
          (QueueThread.runIteration counterValue props (some (QueueItem.request r)) none).1)
    ∧ (¬ counterValue < props.max_concurrent_ansible_processes →
      (QueueThread.runIteration counterValue props (some (QueueItem.request r)) none).1
        = [Event.queueNext, Event.taskDone, Event.queuePut r]
      ∧ Event.counterIncrement ∉
          (QueueThread.runIteration counterValue props (some (QueueItem.request r)) none).1
      ∧ (∀ b x, Event.spawnWorker b x ∉
          (QueueThread.runIteration counterValue props (some (QueueItem.request r)) none).1)
      ∧ List.count (Event.queuePut r)
          (QueueThread.runIteration counterValue props (some (QueueItem.request r)) none).1 = 1) := by
  constructor
  · intro hlt
    simp [QueueThread.runIteration, hlt]
  · intro hge
    simp [QueueThread.runIteration, hge]

/-- Claim C5 (witness): below the limit a worker is spawned; at the limit
the request is re-queued. -/
theorem dispatch_spawn_or_requeue_witness :
    (QueueThread.runIteration 0 {} (some (QueueItem.request [("request_id", "r1")])) none).1
      = [Event.queueNext, Event.counterIncrement,
         Event.spawnWorker false [("request_id", "r1")], Event.taskDone]
    ∧ (QueueThread.runIteration 10 {} (some (QueueItem.request [("request_id", "r1")])) none).1
      = [Event.queueNext, Event.taskDone, Event.queuePut [("request_id", "r1")]] :=
  ⟨(dispatch_spawn_or_requeue 0 {} [("request_id", "r1")]).1 (by decide) |>.1,
   (dispatch_spawn_or_requeue 10 {} [("request_id", "r1")]).2 (by decide) |>.1⟩

/-- Claim C7: a dispatch-loop iteration on a dequeued non-sentinel request
acknowledges with `task_done` exactly once, whatever happens — the normal
spawn path, a raise at the counter increment, a raise at the spawn (the
acknowledgement sits in a `finally` block), and the at-capacity path — and
in the at-capacity path the effect list is literally `task_done` followed by
`put`, so the acknowledgement precedes the re-insertion. -/
theorem dispatch_task_done_exactly_once (counterValue : Nat)
    (props : ProcessProperties) (r : Request) (failAt : Option FailPoint) :
    List.count Event.taskDone
      (QueueThread.runIteration counterValue props (some (QueueItem.request r)) failAt).1 = 1
    ∧ (¬ counterValue < props.max_concurrent_ansible_processes →
        (QueueThread.runIteration counterValue props (some (QueueItem.request r)) failAt).1
          = [Event.queueNext, Event.taskDone, Event.queuePut r]) := by
  constructor
  · by_cases hlt : counterValue < props.max_concurrent_ansible_processes
    · rcases failAt with _ | f
      · simp [QueueThread.runIteration, hlt]
      · cases f <;> simp [QueueThread.runIteration, hlt]
    · simp [QueueThread.runIteration, hlt]
  · intro hge
    simp [QueueThread.runIteration, hge]

/-- Claim C7 (witness): the acknowledgement happens exactly once on the
normal path, on a raise at the increment, and at capacity. -/
theorem dispatch_task_done_exactly_once_witness :
    List.count Event.taskDone
      (QueueThread.runIteration 0 {} (some (QueueItem.request [("request_id", "r1")])) none).1 = 1
    ∧ List.count Event.taskDone
      (QueueThread.runIteration 0 {} (some (QueueItem.request [("request_id", "r1")]))
        (some FailPoint.atIncrement)).1 = 1
    ∧ (QueueThread.runIteration 10 {} (some (QueueItem.request [("request_id", "r1")]))
        (some FailPoint.atSpawn)).1
      = [Event.queueNext, Event.taskDone, Event.queuePut [("request_id", "r1")]] :=
  ⟨(dispatch_task_done_exactly_once 0 {} [("request_id", "r1")] none).1,
   (dispatch_task_done_exactly_once 0 {} [("request_id", "r1")] (some FailPoint.atIncrement)).1,
   (dispatch_task_done_exactly_once 10 {} [("request_id", "r1")] (some FailPoint.atSpawn)).2
     (by decide)⟩

/-- `Counter` from `process.py`: a mutex-guarded integer; the mutual
exclusion is modelled away since each operation is a single atomic update of
the explicit state. -/
structure Counter where
  val : Int
deriving DecidableEq, Repr

/-- The counter as constructed by `AnsibleProcessorService.__init__`:
`Counter()` with the default initial value 0. -/
def Counter.init : Counter := ⟨0⟩

/-- `Counter.increment` from `process.py`. -/
def Counter.increment (c : Counter) : Counter := ⟨c.val + 1⟩

/-- `Counter.decrement` from `process.py`: declared, and called from nowhere
in the module. -/
def Counter.decrement (c : Counter) : Counter := ⟨c.val - 1⟩

/-- `Counter.value` from `process.py`. -/
def Counter.value (c : Counter) : Int := c.val

/-- `AnsibleProcessorService.shutdown` from `process.py`: sets the active
flag false, shuts the bounded queue down and closes the result channel's
write end.  The two collaborator calls are modelled from the spec as
non-raising (the bounded queue's `shutdown` and the channel close are
outside the embedded module); the facade publishes nothing here. -/
def AnsibleProcessorService.shutdown (_active : Bool) : Bool × Except String (List Event) :=
  (false, Except.ok [Event.queueShutdown, Event.pipeClose])

/-- A read of the result channel by the response aggregator either yields a
value (possibly `None`) or raises `EOFError` after the write end closed. -/
inductive RecvOutcome
  | value (result : Option LifecycleExecution)
  | eofError
deriving DecidableEq, Repr

/-- One iteration of `ResponsesThread.run` from `process.py`: a non-`None`
received Result is forwarded to the messaging collaborator; `None` and
`EOFError` are ignored. -/
def ResponsesThread.runIteration (outcome : RecvOutcome) : List Event :=
  match outcome with
  | RecvOutcome.value (some result) => [Event.sendLifecycleExecution result]
  | RecvOutcome.value none => []
  | RecvOutcome.eofError => []

/-- One iteration of `AnsibleProcessorService.ansible_process_worker` from
`process.py` (the static-pool deployment mode): a dequeued request's
execution response is written to the result channel unconditionally; an
exception is caught and converted to a FAILED internal-error Result, unless
the handler's own `request['request_id']` access fails. -/
def AnsibleProcessorService.ansible_process_worker_iteration
    (request : Option Request) (outcome : ExecOutcome) : Except String (List Event) :=
  match request with
  | none => Except.ok [Event.queueNext]
  | some r =>
    match outcome with
    | ExecOutcome.returns resp => Except.ok [Event.queueNext, Event.pipeSend resp]
    | ExecOutcome.raises msg =>
      match r.lookup "request_id" with
      | some rid =>
          Except.ok [Event.queueNext, Event.pipeSend (some
            ⟨rid, Status.FAILED,
             some ⟨FAILURE_CODE_INTERNAL_ERROR, "Unexpected exception: " ++ msg⟩, []⟩)]
      | none => Except.error "KeyError: request_id"

/-- An operation the system can perform after construction: a facade
submission, the facade shutdown, one dispatch-loop iteration, a worker
isolate run of either variant, one response-aggregator iteration, or one
static-pool worker iteration.  Each constructor carries the operation's
inputs (the dequeued item, the execution outcome, the observed queue depth,
the observed counter value). -/
inductive SystemOp
  | runLifecycleOp (queue_size : Nat) (props : ProcessProperties) (request : Request)
  | shutdownOp
  | queueIterOp (counterValue : Nat) (props : ProcessProperties)
      (item : Option QueueItem) (failAt : Option FailPoint)
  | workerThreadOp (request : Option Request) (outcome : ExecOutcome)
  | workerProcessOp (request : Option Request) (outcome : ExecOutcome)
  | responsesIterOp (outcome : RecvOutcome)
  | poolWorkerOp (request : Option Request) (outcome : ExecOutcome)

/-- The effects of a fallible computation: a raised exception performs no
further effects. -/
def exceptEvents : Except String (List Event) → List Event
  | Except.ok evs => evs
  | Except.error _ => []

/-- The effects one operation performs, given the current active flag.  The
dispatch loop and the response aggregator only run their bodies while the
flag is true. -/
def opEvents (active : Bool) : SystemOp → List Event
  | SystemOp.runLifecycleOp queue_size props request =>
      exceptEvents (AnsibleProcessorService.run_lifecycle active queue_size props request)
  | SystemOp.shutdownOp => exceptEvents (AnsibleProcessorService.shutdown active).2
  | SystemOp.queueIterOp counterValue props item failAt =>
      if active then (QueueThread.runIteration counterValue props item failAt).1 else []
  | SystemOp.workerThreadOp request outcome =>
      exceptEvents (AnsibleWorkerThread.run request outcome)
  | SystemOp.workerProcessOp request outcome =>
      exceptEvents (AnsibleWorkerProcess.run request outcome)
  | SystemOp.responsesIterOp outcome =>
      if active then ResponsesThread.runIteration outcome else []
  | SystemOp.poolWorkerOp request outcome =>
      exceptEvents (AnsibleProcessorService.ansible_process_worker_iteration request outcome)

/-- The active flag after one operation: only `shutdown` assigns it (to
false); no other operation of the module writes it. -/
def nextActive (active : Bool) (op : SystemOp) : Bool :=
  match op with
  | SystemOp.shutdownOp => (AnsibleProcessorService.shutdown active).1
  | _ => active

/-- The effects of a sequence of operations, threading the active flag. -/
def traceEvents (active : Bool) : List SystemOp → List Event
  | [] => []
  | op :: ops => opEvents active op ++ traceEvents (nextActive active op) ops

/-- The counter value after one effect: only the counter's own operations
change it. -/
def counterStep (v : Int) (e : Event) : Int :=
  match e with
  | Event.counterIncrement => v + 1
  | Event.counterDecrement => v - 1
  | _ => v

/-- The counter value after a list of effects. -/
def counterAfter (v : Int) (evs : List Event) : Int := evs.foldl counterStep v

theorem opEvents_no_decrement (active : Bool) (op : SystemOp) :
    Event.counterDecrement ∉ opEvents active op := by
  cases op with
  | runLifecycleOp queue_size props request =>
      simp only [opEvents]
      unfold AnsibleProcessorService.run_lifecycle
      rcases List.lookup "request_id" request with _ | rid
      · simp [exceptEvents]
      · rcases List.lookup "lifecycle_name" request with _ | ln
        · simp [exceptEvents]
        · rcases List.lookup "lifecycle_path" request with _ | lp
          · simp [exceptEvents]
          · split_ifs <;> simp [exceptEvents]
  | shutdownOp => simp [opEvents, AnsibleProcessorService.shutdown, exceptEvents]
  | queueIterOp counterValue props item failAt =>
      simp only [opEvents]
      cases active
      · simp
      · simp only [if_true]
        rcases item with _ | item
        · simp [QueueThread.runIteration]
        · cases item with
          | SHUTDOWN_MESSAGE => simp [QueueThread.runIteration]
          | request r =>
              by_cases hlt : counterValue < props.max_concurrent_ansible_processes
              · rcases failAt with _ | f
                · simp [QueueThread.runIteration, hlt]
                · cases f <;> simp [QueueThread.runIteration, hlt]
              · simp [QueueThread.runIteration, hlt]
  | workerThreadOp request outcome =>
      rcases request with _ | r
      · simp [opEvents, AnsibleWorkerThread.run, exceptEvents]
      · rcases outcome with resp | msg
        · rcases resp with _ | resp <;> simp [opEvents, AnsibleWorkerThread.run, exceptEvents]
        · rcases hh : List.lookup "request_id" r with _ | rid <;>
            simp [opEvents, AnsibleWorkerThread.run, exceptEvents, hh]
  | workerProcessOp request outcome =>
      rcases request with _ | r
      · simp [opEvents, AnsibleWorkerProcess.run, exceptEvents]
      · rcases outcome with resp | msg
        · rcases resp with _ | resp <;> simp [opEvents, AnsibleWorkerProcess.run, exceptEvents]
        · rcases hh : List.lookup "request_id" r with _ | rid <;>
            simp [opEvents, AnsibleWorkerProcess.run, exceptEvents, hh]
  | responsesIterOp outcome =>
      cases active
      · simp [opEvents]
      · rcases outcome with res | _
        · rcases res with _ | res <;> simp [opEvents, ResponsesThread.runIteration]
        · simp [opEvents, ResponsesThread.runIteration]
  | poolWorkerOp request outcome =>
      rcases request with _ | r
      · simp [opEvents, AnsibleProcessorService.ansible_process_worker_iteration, exceptEvents]
      · rcases outcome with resp | msg
        · simp [opEvents, AnsibleProcessorService.ansible_process_worker_iteration, exceptEvents]
        · rcases hh : List.lookup "request_id" r with _ | rid <;>
            simp [opEvents, AnsibleProcessorService.ansible_process_worker_iteration,
              exceptEvents, hh]

theorem traceEvents_no_decrement (active : Bool) (ops : List SystemOp) :
    Event.counterDecrement ∉ traceEvents active ops := by
  induction ops generalizing active with
  | nil => simp [traceEvents]
  | cons op ops ih =>
      simp only [traceEvents, List.mem_append]
      rintro (h | h)
      · exact opEvents_no_decrement active op h
      · exact ih (nextActive active op) h

theorem le_counterAfter (evs : List Event) (hnd : Event.counterDecrement ∉ evs)
    (v : Int) : v ≤ counterAfter v evs := by
  induction evs generalizing v with
  | nil => simp [counterAfter]
  | cons e evs ih =>
      have he : e ≠ Event.counterDecrement := fun h => hnd (h ▸ List.mem_cons_self e evs)
      have hstep : v ≤ counterStep v e := by
        cases e <;> simp [counterStep] at he ⊢
      calc v ≤ counterStep v e := hstep
        _ ≤ counterAfter (counterStep v e) evs :=
            ih (fun h => hnd (List.mem_cons_of_mem e h)) _

theorem counterAfter_append (v : Int) (l₁ l₂ : List Event) :
    counterAfter v (l₁ ++ l₂) = counterAfter (counterAfter v l₁) l₂ := by
  simp [counterAfter, List.foldl_append]

/-- Claim C6: every sequence of system operations starting from the
constructed state (active flag true, counter at its initial value 0)
performs no `counterDecrement` effect at all, so along any split of the
trace's effects the counter value never decreases: it is monotonically
non-decreasing from `Counter.init`'s value 0. -/
theorem counter_never_decremented (ops : List SystemOp) (l₁ l₂ : List Event)
    (hsplit : traceEvents true ops = l₁ ++ l₂) :
    Event.counterDecrement ∉ traceEvents true ops
    ∧ counterAfter Counter.init.value l₁ ≤ counterAfter Counter.init.value (l₁ ++ l₂) := by
  have hnd := traceEvents_no_decrement true ops
  refine ⟨hnd, ?_⟩
  rw [hsplit] at hnd
  have h2 : Event.counterDecrement ∉ l₂ := fun h => hnd (List.mem_append_right _ h)
  rw [counterAfter_append]
  exact le_counterAfter l₂ h2 _

/-- Claim C6 (witness): a trace of one dispatch-loop iteration that spawns a
worker, split after the dequeue. -/
theorem counter_never_decremented_witness :
    Event.counterDecrement ∉ traceEvents true
        [SystemOp.queueIterOp 0 {} (some (QueueItem.request [("request_id", "r1")])) none]
    ∧ counterAfter Counter.init.value [Event.queueNext]
        ≤ counterAfter Counter.init.value
            ([Event.queueNext] ++ [Event.counterIncrement,
              Event.spawnWorker false [("request_id", "r1")], Event.taskDone]) :=
  counter_never_decremented
    [SystemOp.queueIterOp 0 {} (some (QueueItem.request [("request_id", "r1")])) none]
    [Event.queueNext]
    [Event.counterIncrement, Event.spawnWorker false [("request_id", "r1")], Event.taskDone]
    (by decide)

theorem foldl_nextActive_false (ops : List SystemOp) :
    List.foldl nextActive false ops = false := by
  induction ops with
  | nil => rfl
  | cons op ops ih =>
      have h : nextActive false op = false := by cases op <;> rfl
      simp only [List.foldl, h]
      exact ih

/-- Claim C9: `shutdown` is idempotent and one-way: a second call returns
the same outcome as the first, returns normally (no raise — the collaborator
calls it makes are modelled from the spec as non-raising), publishes no
Result to the messaging collaborator, and the active flag it sets false is
never set back to true by any subsequent sequence of system operations. -/
theorem shutdown_idempotent_one_way (a : Bool) (ops : List SystemOp) :
    AnsibleProcessorService.shutdown ((AnsibleProcessorService.shutdown a).1)
      = AnsibleProcessorService.shutdown a
    ∧ (AnsibleProcessorService.shutdown ((AnsibleProcessorService.shutdown a).1)).2
      = Except.ok [Event.queueShutdown, Event.pipeClose]
    ∧ sends (exceptEvents
        (AnsibleProcessorService.shutdown ((AnsibleProcessorService.shutdown a).1)).2) = []
    ∧ (AnsibleProcessorService.shutdown a).1 = false
    ∧ List.foldl nextActive (AnsibleProcessorService.shutdown a).1 ops = false := by
  refine ⟨rfl, rfl, ?_, rfl, ?_⟩
  · simp [AnsibleProcessorService.shutdown, exceptEvents, sends]
  · exact foldl_nextActive_false ops
